import Mathlib

/-!
Verification development for the `recruitee-mcp` repository.

The Python sources are shallowly embedded as executable Lean definitions:

* `src/recruitee_mcp/server.py` — the JSON-RPC envelope validator
  (`RecruiteeMCPServer.handle_json_rpc`), the method dispatcher
  (`RecruiteeMCPServer._dispatch`), the built-in protocol handlers and the
  five tool handlers.  JSON values are modelled by the inductive `Json`;
  a Python `dict` is a list of key/value pairs with unique keys (looked up
  by `lookupField`); Python `None` is `Json.null`.  Exceptions are
  modelled with `Except`: the typed client errors (`RecruiteeAPIError`,
  `RecruiteeConnectionError`, `RecruiteeError`, plus any other uncaught
  exception) become the inductive `RecErr`, and `JSONRPCError` becomes the
  structure of the same name.
* `src/recruitee_mcp/http_server.py` — `JSONRPCRequestHandler._dispatch_request`,
  the transport-level wrapper that turns every raised `JSONRPCError` into a
  response object (`dispatchRequest` below).
* `src/recruitee_mcp/client.py` — the URL builder `_build_url` (together
  with a byte-accurate model of `urllib.parse.urlencode(..., doseq=True)`),
  the timestamp coercion `_to_ts`, the filter constructors
  `f_with_tags` / `f_source` / `f_location`, and the pagination iterator
  `iter_search_candidates_advanced`.

The network itself is abstracted: a `ClientEnv` record carries one
function per `RecruiteeClient` endpoint method, each returning
`Except RecErr Json` — exactly the interface the server layer observes.
Quantifying a theorem over every `ClientEnv` expresses that the property
holds for every possible behaviour of the remote API, and a handler result
that is independent of the environment demonstrates that no remote call
influences (or is needed for) the outcome.
-/

namespace RecruiteeMCP

/-! ## JSON values (the data model crossing every boundary) -/

/-- Model of a decoded JSON value / the Python objects produced by
`json.loads`.  Numbers are modelled as integers (no claim in this
development involves fractional JSON numbers). -/
inductive Json where
  | null
  | bool (b : Bool)
  | num (n : Int)
  | str (s : String)
  | arr (elems : List Json)
  | obj (fields : List (String × Json))

/-- Lookup in a Python `dict` modelled as an association list with unique
keys (`d.get(key)` returning `none` for an absent key). -/
def lookupField : List (String × Json) → String → Option Json
  | [], _ => none
  | (k, v) :: rest, key => if k = key then some v else lookupField rest key

/-- Python `d.get(key)` where an absent key yields `None` (`Json.null`). -/
def pyLook (kvs : List (String × Json)) (key : String) : Json :=
  (lookupField kvs key).getD Json.null

/-- Field access on a JSON value; `none` when the value is not an object
or the key is absent. -/
def Json.getField : Json → String → Option Json
  | .obj kvs, key => lookupField kvs key
  | _, _ => none

/-- Python truthiness (`bool(x)`) of a decoded JSON value: `None`, `False`,
`0`, `""`, `[]` and `{}` are falsy, everything else truthy. -/
def Json.pyFalsy : Json → Bool
  | .null => true
  | .bool b => !b
  | .num n => n = 0
  | .str s => s = ""
  | .arr xs => xs.isEmpty
  | .obj kvs => kvs.isEmpty

mutual
/-- Python `repr` of a decoded JSON value (used by f-string interpolation
of containers; `str` falls back to this for lists and dicts). -/
def pyRepr : Json → String
  | .null => "None"
  | .bool true => "True"
  | .bool false => "False"
  | .num n => toString n
  | .str s => "\x27" ++ s ++ "\x27"
  | .arr xs => "[" ++ String.intercalate ", " (pyReprList xs) ++ "]"
  | .obj kvs => "\x7b" ++ String.intercalate ", " (pyReprObj kvs) ++ "\x7d"

/-- Helper of `pyRepr` for array elements. -/
def pyReprList : List Json → List String
  | [] => []
  | x :: xs => pyRepr x :: pyReprList xs

/-- Helper of `pyRepr` for object entries. -/
def pyReprObj : List (String × Json) → List String
  | [] => []
  | (k, v) :: xs => ("\x27" ++ k ++ "\x27: " ++ pyRepr v) :: pyReprObj xs
end

/-- Python `str()` of a decoded JSON value, as used by f-string
interpolation (`f"Unknown method: {method}"` and the like). -/
def pyStr : Json → String
  | .str s => s
  | v => pyRepr v

/-- Python type name of a decoded JSON value, as it appears in an
`AttributeError` raised by calling `.get` on a non-dict. -/
def pyTypeName : Json → String
  | .null => "NoneType"
  | .bool _ => "bool"
  | .num _ => "int"
  | .str _ => "str"
  | .arr _ => "list"
  | .obj _ => "dict"

/-- Message of the `AttributeError` raised when handler code calls
`.get(...)` on a params/arguments value that is not a mapping. -/
def attrGetError (v : Json) : String :=
  "\x27" ++ pyTypeName v ++ "\x27 object has no attribute \x27get\x27"

/-! ## Typed errors of the client layer (`client.py` lines 20–42)

`RecErr` models the exceptions a handler invocation can raise as observed
at the `_dispatch` boundary: `RecruiteeAPIError` (carrying its
`status_code` and its `str(exc)` rendering), `RecruiteeConnectionError`,
plain `RecruiteeError`, and `otherExc` for any exception outside the
`RecruiteeError` hierarchy (e.g. `AttributeError`, `RuntimeError`).  The
`rendered` / `message` component is the string `str(exc)` evaluates to. -/

inductive RecErr where
  | apiError (statusCode : Int) (rendered : String)
  | connectionError (rendered : String)
  | recruiteeError (message : String)
  | otherExc (message : String)

/-- Abstraction of `RecruiteeClient` as seen by the server layer: one
function per endpoint method actually invoked by `server.py`, returning
either a decoded JSON body or a raised error.  Argument lists mirror the
call sites in `server.py`. -/
structure ClientEnv where
  listOffers : (state limit : Json) → (includeDescription : Bool) → Except RecErr Json
  listPipelines : Except RecErr Json
  getOffer : Json → Except RecErr Json
  searchCandidates : (query page limit : Json) → Except RecErr Json
  getCandidate : Json → Except RecErr Json
  createCandidate : (firstName lastName email phone source offerId
      pipelineId notes customFields : Json) → Except RecErr Json

/-! ## `JSONRPCError` (`server.py` lines 28–41) -/

/-- The `JSONRPCError` exception: code, message and optional auxiliary
data. -/
structure JSONRPCError where
  code : Int
  message : String
  data : Option Json

/-- `JSONRPCError.to_response` (`server.py` lines 37–41): the `data` entry
is added only when data is not `None`. -/
def JSONRPCError.toResponse (e : JSONRPCError) (requestId : Json) : Json :=
  let base := [("code", Json.num e.code), ("message", Json.str e.message)]
  let errObj := match e.data with
    | some d => base ++ [("data", d)]
    | none => base
  .obj [("jsonrpc", .str "2.0"), ("error", .obj errObj), ("id", requestId)]

/-! ## Response constructors (`server.py` lines 384–401) -/

/-- `RecruiteeMCPServer._response`. -/
def jresponse (requestId : Json) (result : Json) : Json :=
  .obj [("jsonrpc", .str "2.0"), ("id", requestId), ("result", result)]

/-- `RecruiteeMCPServer._error`. -/
def jerror (requestId : Json) (code : Int) (message : String) : Json :=
  .obj [("jsonrpc", .str "2.0"), ("id", requestId),
    ("error", .obj [("code", .num code), ("message", .str message)])]

/-- `RecruiteeMCPServer._json_content`. -/
def jsonContent (data : Json) : Json :=
  .obj [("type", .str "application/json"), ("data", data)]

/-! ## Tool handlers (`server.py` lines 326–373)

Each handler receives the `arguments` value.  A non-dict argument value
raises `AttributeError` at the first `.get` call, modelled by the
`otherExc` branch. -/

/-- `RecruiteeMCPServer._tool_search_offers`. -/
def toolSearchOffers (env : ClientEnv) (args : Json) : Except RecErr Json :=
  match args with
  | .obj kvs =>
      env.listOffers (pyLook kvs "state") (pyLook kvs "limit")
        (!(pyLook kvs "include_description").pyFalsy)
  | v => .error (.otherExc (attrGetError v))

/-- `RecruiteeMCPServer._tool_get_offer`. -/
def toolGetOffer (env : ClientEnv) (args : Json) : Except RecErr Json :=
  match args with
  | .obj kvs =>
      match pyLook kvs "offer_id" with
      | .null => .error (.recruiteeError "\x27offer_id\x27 is required")
      | offerId => env.getOffer offerId
  | v => .error (.otherExc (attrGetError v))

/-- `RecruiteeMCPServer._tool_search_candidates`; note the truthiness test
`if not query`. -/
def toolSearchCandidates (env : ClientEnv) (args : Json) : Except RecErr Json :=
  match args with
  | .obj kvs =>
      let query := pyLook kvs "query"
      if query.pyFalsy then .error (.recruiteeError "\x27query\x27 is required")
      else env.searchCandidates query (pyLook kvs "page") (pyLook kvs "limit")
  | v => .error (.otherExc (attrGetError v))

/-- `RecruiteeMCPServer._tool_get_candidate`. -/
def toolGetCandidate (env : ClientEnv) (args : Json) : Except RecErr Json :=
  match args with
  | .obj kvs =>
      match pyLook kvs "candidate_id" with
      | .null => .error (.recruiteeError "\x27candidate_id\x27 is required")
      | candidateId => env.getCandidate candidateId
  | v => .error (.otherExc (attrGetError v))

/-- The `required` list of `_tool_create_candidate`. -/
def requiredCreateFields : List String := ["first_name", "last_name", "email"]

/-- `RecruiteeMCPServer._tool_create_candidate` (`server.py` lines
357–373): the list comprehension
`[field for field in required if not arguments.get(field)]` is the filter
by Python falsiness, so an absent field (`None`), an explicit `null`
(`None` again) and an empty string are all collected as missing; the
client is consulted only when no required field is missing. -/
def toolCreateCandidate (env : ClientEnv) (args : Json) : Except RecErr Json :=
  match args with
  | .obj kvs =>
      let missing := requiredCreateFields.filter (fun f => (pyLook kvs f).pyFalsy)
      if missing ≠ [] then
        .error (.recruiteeError
          ("Missing required fields: " ++ String.intercalate ", " missing))
      else
        env.createCandidate (pyLook kvs "first_name") (pyLook kvs "last_name")
          (pyLook kvs "email") (pyLook kvs "phone") (pyLook kvs "source")
          (pyLook kvs "offer_id") (pyLook kvs "pipeline_id") (pyLook kvs "notes")
          (pyLook kvs "custom_fields")
  | v => .error (.otherExc (attrGetError v))

/-! ## Tool registry (`server.py` lines 57–150) -/

/-- Registration order of the `_tools` dict. -/
def toolNames : List String :=
  ["search_offers", "get_offer", "search_candidates", "get_candidate",
   "create_candidate"]

/-- The `description` field of each registered `_Tool`. -/
def toolDescription : String → String
  | "search_offers" => "List job offers for the company."
  | "get_offer" => "Fetch a single offer by identifier."
  | "search_candidates" => "Search candidates by text query."
  | "get_candidate" => "Fetch a candidate by identifier."
  | "create_candidate" => "Create a new candidate record."
  | _ => ""

/-- The `schema` field of each registered `_Tool`, as literal JSON. -/
def toolSchema : String → Json
  | "search_offers" => .obj [("type", .str "object"),
      ("properties", .obj [
        ("state", .obj [("type", .arr [.str "string", .str "null"]),
          ("description", .str "Filter by offer state (published, archived, etc).")]),
        ("limit", .obj [("type", .arr [.str "integer", .str "null"]),
          ("description", .str "Maximum number of offers to return.")]),
        ("include_description", .obj [("type", .arr [.str "boolean", .str "null"]),
          ("description", .str "Include offer descriptions in the payload.")])])]
  | "get_offer" => .obj [("type", .str "object"),
      ("required", .arr [.str "offer_id"]),
      ("properties", .obj [
        ("offer_id", .obj [("type", .arr [.str "integer", .str "string"]),
          ("description", .str "Offer identifier.")])])]
  | "search_candidates" => .obj [("type", .str "object"),
      ("required", .arr [.str "query"]),
      ("properties", .obj [
        ("query", .obj [("type", .str "string"),
          ("description", .str "Query string that matches candidate fields.")]),
        ("page", .obj [("type", .arr [.str "integer", .str "null"])]),
        ("limit", .obj [("type", .arr [.str "integer", .str "null"])])])]
  | "get_candidate" => .obj [("type", .str "object"),
      ("required", .arr [.str "candidate_id"]),
      ("properties", .obj [
        ("candidate_id", .obj [("type", .arr [.str "integer", .str "string"])])])]
  | "create_candidate" => .obj [("type", .str "object"),
      ("required", .arr [.str "first_name", .str "last_name", .str "email"]),
      ("properties", .obj [
        ("first_name", .obj [("type", .str "string")]),
        ("last_name", .obj [("type", .str "string")]),
        ("email", .obj [("type", .str "string")]),
        ("phone", .obj [("type", .arr [.str "string", .str "null"])]),
        ("source", .obj [("type", .arr [.str "string", .str "null"])]),
        ("offer_id", .obj [("type", .arr [.str "integer", .str "null"])]),
        ("pipeline_id", .obj [("type", .arr [.str "integer", .str "null"])]),
        ("notes", .obj [("type", .arr [.str "string", .str "null"])]),
        ("custom_fields", .obj [("type", .arr [.str "object", .str "null"])])])]
  | _ => .null

/-- The `handler` field of each registered `_Tool`
(`self._tools.get(name)` for a string name). -/
def toolHandler (env : ClientEnv) : String → Option (Json → Except RecErr Json)
  | "search_offers" => some (toolSearchOffers env)
  | "get_offer" => some (toolGetOffer env)
  | "search_candidates" => some (toolSearchCandidates env)
  | "get_candidate" => some (toolGetCandidate env)
  | "create_candidate" => some (toolCreateCandidate env)
  | _ => none

/-! ## Built-in protocol handlers (`server.py` lines 253–321) -/

/-- The fallback `MCP_PROTOCOL_VERSION` (`server.py` line 21; the optional
`mcp` dependency is absent in the minimal install). -/
def MCP_PROTOCOL_VERSION : String := "0.5"

/-- Result of `RecruiteeMCPServer._handle_initialize`. -/
def initializeResult : Json :=
  .obj [("protocolVersion", .str MCP_PROTOCOL_VERSION),
    ("serverInfo", .obj [("name", .str "recruitee-mcp"), ("version", .str "0.1.0")]),
    ("capabilities", .obj [
      ("resources", .obj [("list", .bool true), ("read", .bool true)]),
      ("tools", .obj [("list", .bool true), ("call", .bool true)])])]

/-- Result of `RecruiteeMCPServer._handle_list_resources` (params unused). -/
def listResourcesResult : Json :=
  .obj [("resources", .arr [
    .obj [("uri", .str "recruitee://offers"), ("name", .str "Job offers"),
      ("description", .str "Published job offers for the configured company.")],
    .obj [("uri", .str "recruitee://pipelines"), ("name", .str "Pipelines"),
      ("description", .str "Recruiting pipelines and stages.")]])]

/-- Result of `RecruiteeMCPServer._handle_list_tools`: the catalog in
registration order, without handlers. -/
def listToolsResult : Json :=
  .obj [("tools", .arr (toolNames.map fun n =>
    .obj [("name", .str n), ("description", .str (toolDescription n)),
      ("inputSchema", toolSchema n)]))]

/-- `RecruiteeMCPServer._handle_read_resource`: a non-dict params value
raises `AttributeError` at `params.get("uri")`. -/
def handleReadResource (env : ClientEnv) (params : Json) : Except RecErr Json :=
  match params with
  | .obj kvs =>
      match pyLook kvs "uri" with
      | .str u =>
          if u = "recruitee://offers" then
            (env.listOffers Json.null Json.null true).map
              (fun data => Json.obj [("contents", Json.arr [jsonContent data])])
          else if u = "recruitee://pipelines" then
            env.listPipelines.map
              (fun data => Json.obj [("contents", Json.arr [jsonContent data])])
          else .error (.recruiteeError ("Unsupported resource URI: " ++ u))
      | uri => .error (.recruiteeError ("Unsupported resource URI: " ++ pyStr uri))
  | v => .error (.otherExc (attrGetError v))

/-- `RecruiteeMCPServer._handle_call_tool`: `arguments` falls back to the
empty dict when falsy (`params.get("arguments") or {}`); looking up a
list- or dict-valued tool name in the `_tools` dict raises `TypeError`
(unhashable key), any other non-registered name yields the
`Unknown tool` domain error. -/
def handleCallTool (env : ClientEnv) (params : Json) : Except RecErr Json :=
  match params with
  | .obj kvs =>
      let name := pyLook kvs "name"
      let rawArgs := pyLook kvs "arguments"
      let arguments := if rawArgs.pyFalsy then Json.obj [] else rawArgs
      match name with
      | .arr _ => .error (.otherExc "unhashable type: \x27list\x27")
      | .obj _ => .error (.otherExc "unhashable type: \x27dict\x27")
      | nm =>
          match (match nm with | .str s => toolHandler env s | _ => none) with
          | none => .error (.recruiteeError ("Unknown tool: " ++ pyStr nm))
          | some handle =>
              (handle arguments).map
                (fun result => Json.obj [("content", Json.arr [jsonContent result])])
  | v => .error (.otherExc (attrGetError v))

/-! ## The dispatcher (`server.py` lines 225–251) -/

/-- Body of the `try` block of `RecruiteeMCPServer._dispatch`: route the
method name, returning either a response object (success responses and the
`-32601` unknown-method error response are both ordinary returns) or a
raised error to be translated by the `except` clauses. -/
def dispatchCore (env : ClientEnv) (requestId : Json) (method : Json)
    (params : Json) : Except RecErr Json :=
  match method with
  | .str s =>
      if s = "initialize" then .ok (jresponse requestId initializeResult)
      else if s = "ping" then .ok (jresponse requestId (.str "pong"))
      else if s = "list_resources" then .ok (jresponse requestId listResourcesResult)
      else if s = "read_resource" then
        (handleReadResource env params).map (jresponse requestId)
      else if s = "list_tools" then .ok (jresponse requestId listToolsResult)
      else if s = "call_tool" then
        (handleCallTool env params).map (jresponse requestId)
      else .ok (jerror requestId (-32601) ("Unknown method: " ++ s))
  | other => .ok (jerror requestId (-32601) ("Unknown method: " ++ pyStr other))

/-- The `try`/`except` body of `RecruiteeMCPServer._dispatch` over the
three extracted locals (`request_id`, `method`, `params` — the last
already normalized by `request.get("params") or {}`): run the routed
handler and translate a raised client-layer error by the `except`
clauses — `RecruiteeAPIError` to `exc.status_code or -32000` (Python
truthiness: the status is used whenever it is nonzero),
`RecruiteeConnectionError` to `-32002`, other `RecruiteeError` to
`-32001`, and any other exception to `-32603` with message
`"Unexpected error: {exc}"`. -/
def dispatchWith (env : ClientEnv) (requestId method params : Json) : Json :=
  match dispatchCore env requestId method params with
  | .ok r => r
  | .error (.apiError s rendered) =>
      jerror requestId (if s = 0 then -32000 else s) rendered
  | .error (.connectionError rendered) => jerror requestId (-32002) rendered
  | .error (.recruiteeError msg) => jerror requestId (-32001) msg
  | .error (.otherExc msg) => jerror requestId (-32603) ("Unexpected error: " ++ msg)

/-- The full `RecruiteeMCPServer._dispatch`: extract the three locals from
the request object and run `dispatchWith`. -/
def dispatch (env : ClientEnv) (request : Json) : Json :=
  let rawParams := (request.getField "params").getD .null
  dispatchWith env ((request.getField "id").getD .null)
    ((request.getField "method").getD .null)
    (if rawParams.pyFalsy then Json.obj [] else rawParams)

/-! ## Envelope validation (`server.py` lines 155–189) -/

/-- Replace (or append) one key of a Python dict
(`normalized_request["params"] = params` on `dict(request)`). -/
def setField (kvs : List (String × Json)) (key : String) (v : Json) :
    List (String × Json) :=
  if (lookupField kvs key).isSome then
    kvs.map (fun kv => if kv.1 = key then (key, v) else kv)
  else kvs ++ [(key, v)]

/-- The test `request.get("jsonrpc") == "2.0"` (only a string value can
compare equal to the literal). -/
def tagOk (v : Option Json) : Bool :=
  match v with
  | some (.str s) => decide (s = "2.0")
  | _ => false

/-- The test `request.get("id") is None` on a present `id` entry (a JSON
`null` decodes to Python `None`). -/
def idIsNull (v : Option Json) : Bool :=
  match v with
  | some .null => true
  | _ => false

/-- The test `isinstance(method_name, str) and method_name` (a non-empty
string). -/
def methodOk (v : Option Json) : Bool :=
  match v with
  | some (.str s) => decide (s ≠ "")
  | _ => false

/-- `RecruiteeMCPServer.handle_json_rpc`: validate the envelope (each
violation raises `JSONRPCError`, modelled as the `Except.error` branch),
normalize `params` (absent or JSON `null` become the empty dict — both
are Python `None`; any non-dict value is rejected), then dispatch.
Mirrors the source order: object check, protocol tag, id presence, id
non-null, method shape, params shape. -/
def handleJsonRpc (env : ClientEnv) (request : Json) :
    Except JSONRPCError Json :=
  match request with
  | .obj kvs =>
      if tagOk (lookupField kvs "jsonrpc") = false then
        .error ⟨-32600, "Invalid Request", some (.str "jsonrpc must be \x272.0\x27")⟩
      else if (lookupField kvs "id").isNone then
        .error ⟨-32600, "Invalid Request", some (.str "Missing id")⟩
      else if idIsNull (lookupField kvs "id") = true then
        .error ⟨-32600, "Invalid Request", some (.str "id must not be null")⟩
      else if methodOk (lookupField kvs "method") = false then
        .error ⟨-32600, "Invalid Request",
          some (.str "Method must be a non-empty string")⟩
      else
        match (lookupField kvs "params").getD .null with
        | .null => .ok (dispatch env (.obj (setField kvs "params" (.obj []))))
        | .obj pkvs => .ok (dispatch env (.obj (setField kvs "params" (.obj pkvs))))
        | _ => .error ⟨-32602, "Invalid params", some (.str "Params must be an object")⟩
  | _ => .error ⟨-32600, "Invalid Request", some (.str "Request must be an object")⟩

/-! ## HTTP transport boundary (`http_server.py` lines 153–164) -/

/-- `JSONRPCRequestHandler._dispatch_request`: a non-dict payload is
answered directly; otherwise `handle_json_rpc` runs and a raised
`JSONRPCError` is converted to a response carrying `payload.get("id")`.
The final `except Exception` safety net of the source is unreachable in
this model because `handleJsonRpc` is a total function. -/
def dispatchRequest (env : ClientEnv) (payload : Json) : Json :=
  match payload with
  | .obj kvs =>
      (match handleJsonRpc env payload with
       | .ok r => r
       | .error e => e.toResponse ((lookupField kvs "id").getD .null))
  | _ =>
      (JSONRPCError.mk (-32600) "Invalid Request"
        (some (.str "Request must be an object"))).toResponse .null

/-! ## URL construction (`client.py` lines 263–272)

`_build_url` builds `{base_url rstripped of "/"}/c/{company_id}/{path
lstripped of "/"}`, drops `None`-valued query parameters, and appends a
query string only when a parameter survives the filter.  The query string
is produced by `urllib.parse.urlencode(filtered, doseq=True)`, modelled
byte-accurately below for the value shapes the client passes (strings,
integers and lists thereof). -/

/-- Value shape of a query parameter as passed by `RecruiteeClient`
(`None`, a string, an integer, or a list encoded per-element by
`doseq=True`). -/
inductive ParamValue where
  | null
  | str (s : String)
  | int (n : Int)
  | seqStr (xs : List String)
  | seqInt (xs : List Int)

/-- Whether a parameter value is Python `None` (dropped by the filter
`v is not None`). -/
def ParamValue.isNull : ParamValue → Bool
  | .null => true
  | _ => false

/-- UTF-8 encoding of a Unicode code point, as a list of byte values. -/
def utf8Bytes (n : Nat) : List Nat :=
  if n < 0x80 then [n]
  else if n < 0x800 then [0xC0 + n / 64, 0x80 + n % 64]
  else if n < 0x10000 then [0xE0 + n / 4096, 0x80 + (n / 64) % 64, 0x80 + n % 64]
  else [0xF0 + n / 262144, 0x80 + (n / 4096) % 64, 0x80 + (n / 64) % 64,
    0x80 + n % 64]

/-- Uppercase hexadecimal digit. -/
def hexDigit (n : Nat) : Char :=
  (String.toList "0123456789ABCDEF").getD n '0'

/-- Percent-escape of one byte: `%XX` with uppercase hex. -/
def percentByte (n : Nat) : String :=
  String.mk ['%', hexDigit (n / 16), hexDigit (n % 16)]

/-- Bytes left unescaped by `urllib.parse.quote_plus`: ASCII letters,
digits, `_`, `.`, `-` and `~`. -/
def quoteSafeByte (n : Nat) : Bool :=
  (48 ≤ n && n ≤ 57) || (65 ≤ n && n ≤ 90) || (97 ≤ n && n ≤ 122) ||
    n = 95 || n = 46 || n = 45 || n = 126

/-- `urllib.parse.quote_plus`: UTF-8 encode, keep safe bytes, turn a space
into `+`, percent-escape everything else. -/
def quotePlus (s : String) : String :=
  String.join (s.toList.map fun c =>
    String.join ((utf8Bytes c.toNat).map fun n =>
      if n = 32 then "+"
      else if quoteSafeByte n then String.singleton (Char.ofNat n)
      else percentByte n))

/-- One key/value pair rendered by `urlencode(..., doseq=True)`: a
sequence value repeats the key once per element (`str()` applied to
non-string elements), a scalar yields a single `key=value` pair. -/
def encodePair (k : String) : ParamValue → List String
  | .null => [quotePlus k ++ "=" ++ quotePlus "None"]
  | .str s => [quotePlus k ++ "=" ++ quotePlus s]
  | .int n => [quotePlus k ++ "=" ++ quotePlus (toString n)]
  | .seqStr xs => xs.map (fun s => quotePlus k ++ "=" ++ quotePlus s)
  | .seqInt xs => xs.map (fun n => quotePlus k ++ "=" ++ quotePlus (toString n))

/-- `urllib.parse.urlencode(params, doseq=True)`: pairs joined by `&`. -/
def urlencodeDoseq (params : List (String × ParamValue)) : String :=
  String.intercalate "&" ((params.map (fun kv => encodePair kv.1 kv.2)).flatten)

/-- Python `s.lstrip("/")`. -/
def stripLeadingSlashes (s : String) : String :=
  String.mk (s.toList.dropWhile (fun c => c = '/'))

/-- Python `s.rstrip("/")`. -/
def stripTrailingSlashes (s : String) : String :=
  String.mk ((s.toList.reverse.dropWhile (fun c => c = '/')).reverse)

/-- `RecruiteeClient._build_url`; `params` is `none` for the `params=None`
default.  `if params:` is Python truthiness (skipped for `None` and for an
empty dict), then `None`-valued entries are filtered out and the query
string is appended only when the filter leaves something. -/
def buildUrl (baseUrl companyId path : String)
    (params : Option (List (String × ParamValue))) : String :=
  let normalized := stripLeadingSlashes path
  let url := stripTrailingSlashes baseUrl ++ "/c/" ++ companyId ++ "/" ++ normalized
  match params with
  | none => url
  | some ps =>
      if ps.isEmpty then url
      else
        let filtered := ps.filter (fun kv => !kv.2.isNull)
        if filtered.isEmpty then url
        else url ++ "?" ++ urlencodeDoseq filtered

/-! ## Timestamp coercion (`client.py` lines 556–568)

`_to_ts` accepts `int`, `float`, `datetime.datetime` or `datetime.date`.
A float models as a rational; `int(float)` truncates toward zero.  A
naive datetime (`tzinfo is None`) is re-tagged UTC by
`value.replace(tzinfo=timezone.utc)`; `datetime.timestamp()` on an aware
value is the exact epoch arithmetic below (microseconds, which no claim
involves, are omitted).  A bare date becomes
`datetime(y, m, d, tzinfo=timezone.utc)`. -/

/-- Python `datetime.date`. -/
structure PDate where
  year : Int
  month : Int
  day : Int

/-- Python `datetime.datetime` (microseconds omitted);
`tzOffsetSeconds = none` models a naive value, `some o` a fixed-offset
zone `o` seconds east of UTC (`some 0` is `timezone.utc`). -/
structure PDateTime where
  year : Int
  month : Int
  day : Int
  hour : Int
  minute : Int
  second : Int
  tzOffsetSeconds : Option Int

/-- Days between a proleptic-Gregorian civil date and 1970-01-01
(the standard era-based civil-from-days inverse, as used by every epoch
conversion). -/
def daysFromCivil (y m d : Int) : Int :=
  let y2 := if m ≤ 2 then y - 1 else y
  let era := Int.fdiv y2 400
  let yoe := y2 - era * 400
  let doy := Int.fdiv (153 * (if 2 < m then m - 3 else m + 9) + 2) 5 + d - 1
  let doe := yoe * 365 + Int.fdiv yoe 4 - Int.fdiv yoe 100 + doy
  era * 146097 + doe - 719468

/-- Epoch seconds of an aware civil timestamp with UTC offset `off`. -/
def civilTs (y m d hh mi ss off : Int) : Int :=
  daysFromCivil y m d * 86400 + hh * 3600 + mi * 60 + ss - off

/-- Python `int()` on a rational value: truncation toward zero. -/
def ratTrunc (q : Rat) : Int := Int.tdiv q.num q.den

/-- Input domain of `_to_ts`. -/
inductive TsValue where
  | int (n : Int)
  | float (q : Rat)
  | datetime (dt : PDateTime)
  | date (d : PDate)

/-- `_to_ts` (`client.py` lines 556–568): an `int`/`float` is truncated to
`int`; a naive datetime is re-tagged UTC before `timestamp()`; a bare
date becomes midnight UTC of that date.  (The final `TypeError` branch is
outside the closed input domain.) -/
def toTs : TsValue → Int
  | .int n => n
  | .float q => ratTrunc q
  | .datetime dt =>
      let off := match dt.tzOffsetSeconds with | some o => o | none => 0
      civilTs dt.year dt.month dt.day dt.hour dt.minute dt.second off
  | .date d => civilTs d.year d.month d.day 0 0 0 0

/-! ## Match-validated filter constructors (`client.py` lines 612–631) -/

/-- `f_with_tags`: rejects a `match` value outside `("any", "all")` with
`ValueError` before building the filter dict
`{"field": "tags", match: list(tags)}`. -/
def fWithTags (tags : List String) (mtch : String) : Except String Json :=
  if mtch ≠ "any" ∧ mtch ≠ "all" then
    .error "match must be \x27any\x27 or \x27all\x27"
  else .ok (.obj [("field", .str "tags"), (mtch, .arr (tags.map .str))])

/-- `f_source`: same validation, field `"source"`. -/
def fSource (sources : List String) (mtch : String) : Except String Json :=
  if mtch ≠ "any" ∧ mtch ≠ "all" then
    .error "match must be \x27any\x27 or \x27all\x27"
  else .ok (.obj [("field", .str "source"), (mtch, .arr (sources.map .str))])

/-- `f_location`: same validation, field `"location"`. -/
def fLocation (labels : List String) (mtch : String) : Except String Json :=
  if mtch ≠ "any" ∧ mtch ≠ "all" then
    .error "match must be \x27any\x27 or \x27all\x27"
  else .ok (.obj [("field", .str "location"), (mtch, .arr (labels.map .str))])

/-! ## Pagination iterator (`client.py` lines 405–470)

`iter_search_candidates_advanced` is a generator: the remote endpoint is
abstracted as `src : offset → limit → Json` (the decoded response of one
`search_candidates_advanced` call), and the generator is modelled as a
function returning the full list of yielded items together with the log
of `(offset, limit)` pairs actually requested.  The `while True` loop is
given fuel; every theorem below supplies enough fuel for the scenario it
evaluates.  The truthy-but-non-list `items` leftover (a malformed remote
response that would make the Python `for` loop iterate a non-list) is not
modelled: `extractItems` yields `none` whenever no list is found, which
coincides with the source for every JSON-object response whose candidate
keys are lists or absent. -/

/-- Response-shape tolerance: `resp.get("candidates")` when it is a list,
else the first list-valued key among `items`, `results`, `data`, `hits`. -/
def extractFallback (resp : Json) : List String → Option (List Json)
  | [] => none
  | k :: rest =>
      match resp.getField k with
      | some (.arr xs) => some xs
      | _ => extractFallback resp rest

/-- Item extraction step of the iterator (`client.py` lines 447–452). -/
def extractItems (resp : Json) : Option (List Json) :=
  match resp.getField "candidates" with
  | some (.arr xs) => some xs
  | _ => extractFallback resp ["items", "results", "data", "hits"]

/-- The `for it in items:` loop body (`client.py` lines 456–460): yield
items one by one, bumping `yielded`, and return early as soon as the cap
is met.  Returns the yielded prefix, the new `yielded` count, and whether
the early `return` fired. -/
def yieldPage (maxRecords : Option Nat) : Nat → List Json → List Json × Nat × Bool
  | yielded, [] => ([], yielded, false)
  | yielded, it :: rest =>
      let y := yielded + 1
      if (match maxRecords with | some m => decide (m ≤ y) | none => false) then
        ([it], y, true)
      else
        let r := yieldPage maxRecords y rest
        (it :: r.1, r.2.1, r.2.2)

/-- Result of running the iterator to exhaustion: the yielded items and
the `(offset, limit)` of every page request issued. -/
structure IterResult where
  items : List Json
  requests : List (Nat × Nat)

/-- `RecruiteeClient.iter_search_candidates_advanced` (`client.py` lines
405–470), fuel-indexed: per round, compute the per-page `limit`
(`min(page_size, max_records - yielded)`, returning before any request
when the cap is already met), issue the request, extract the item list
(empty or missing list ends iteration), yield with cap checking, advance
the offset by the number of items actually received, and stop when the
page came back short. -/
def iterAdvanced (src : Nat → Nat → Json) (pageSize : Nat)
    (maxRecords : Option Nat) : Nat → Nat → Nat → IterResult
  | 0, _, _ => ⟨[], []⟩
  | fuel + 1, offset, yielded =>
      let limit? : Option Nat :=
        match maxRecords with
        | some m => if m ≤ yielded then none else some (min pageSize (m - yielded))
        | none => some pageSize
      match limit? with
      | none => ⟨[], []⟩
      | some limit =>
          let resp := src offset limit
          match extractItems resp with
          | none => ⟨[], [(offset, limit)]⟩
          | some xs =>
              if xs.isEmpty then ⟨[], [(offset, limit)]⟩
              else
                let step := yieldPage maxRecords yielded xs
                if step.2.2 then ⟨step.1, [(offset, limit)]⟩
                else
                  let got := xs.length
                  if got < limit then ⟨step.1, [(offset, limit)]⟩
                  else
                    let r := iterAdvanced src pageSize maxRecords fuel
                      (offset + got) step.2.1
                    ⟨step.1 ++ r.items, (offset, limit) :: r.requests⟩

/-- A mock remote source holding `total` records: each request returns the
next `min(limit, total - offset)` of them under the `candidates` key. -/
def mockSource (total : Nat) (offset limit : Nat) : Json :=
  .obj [("candidates", .arr (List.replicate (min limit (total - offset)) (.obj [])))]

/-- A mock remote source with unboundedly many records: every request
returns exactly `limit` items. -/
def mockUnbounded (_offset limit : Nat) : Json :=
  .obj [("candidates", .arr (List.replicate limit (.obj [])))]

/-! ## Auxiliary definitions for the theorems -/

/-- The method names `_dispatch` routes (the registered surface). -/
def registeredMethods : List String :=
  ["initialize", "ping", "list_resources", "read_resource", "list_tools",
   "call_tool"]

/-- Whether a response object carries the given top-level field. -/
def hasField (r : Json) (k : String) : Bool := (r.getField k).isSome

/-- Exactly one of `result`/`error` is present — never both, never
neither. -/
def exactlyOneOf (r : Json) : Prop :=
  (hasField r "result" = true ∧ hasField r "error" = false) ∨
  (hasField r "result" = false ∧ hasField r "error" = true)

/-- A well-formed JSON-RPC response object: protocol tag `"2.0"`, an `id`
field, and exactly one of `result`/`error`. -/
def wellFormedResponse (r : Json) : Prop :=
  r.getField "jsonrpc" = some (.str "2.0") ∧ hasField r "id" = true ∧
    exactlyOneOf r

/-- Whether an `Except` computation succeeded. -/
def isOkE {ε α : Type} : Except ε α → Bool
  | .ok _ => true
  | .error _ => false

/-- A remote environment in which every call succeeds with a plausible
body (used to evaluate concrete requests). -/
def stubEnv : ClientEnv where
  listOffers := fun _ _ _ => .ok (.obj [("offers", .arr [])])
  listPipelines := .ok (.obj [("pipelines", .arr [])])
  getOffer := fun _ => .ok (.obj [("offer", .obj [])])
  searchCandidates := fun _ _ _ => .ok (.obj [("candidates", .arr [])])
  getCandidate := fun _ => .ok (.obj [("candidate", .obj [])])
  createCandidate := fun _ _ _ _ _ _ _ _ _ =>
    .ok (.obj [("candidate", .obj [("id", .num 1)])])

/-- Environment whose offer listing fails with a `RecruiteeAPIError`
carrying the given status code. -/
def apiStatusEnv (s : Int) : ClientEnv :=
  { stubEnv with listOffers := fun _ _ _ => .error (.apiError s "api failure") }

/-- Environment whose offer listing fails with a connection error. -/
def connFailEnv : ClientEnv :=
  { stubEnv with
    listOffers := fun _ _ _ => .error (.connectionError "connection refused") }

/-- Environment whose offer listing raises an exception outside the
`RecruiteeError` hierarchy. -/
def boomEnv : ClientEnv :=
  { stubEnv with listOffers := fun _ _ _ => .error (.otherExc "boom") }

/-- A valid `read_resource` request against the offers resource. -/
def readOffersReq : Json :=
  .obj [("jsonrpc", .str "2.0"), ("id", .num 1),
    ("method", .str "read_resource"),
    ("params", .obj [("uri", .str "recruitee://offers")])]

/-! ## Shape lemmas for the two response constructors -/

theorem jresponse_shape (i x : Json) :
    wellFormedResponse (jresponse i x) ∧ (jresponse i x).getField "id" = some i :=
  ⟨⟨rfl, rfl, Or.inl ⟨rfl, rfl⟩⟩, rfl⟩

theorem jerror_shape (i : Json) (c : Int) (s : String) :
    wellFormedResponse (jerror i c s) ∧ (jerror i c s).getField "id" = some i :=
  ⟨⟨rfl, rfl, Or.inr ⟨rfl, rfl⟩⟩, rfl⟩

theorem toResponse_shape (e : JSONRPCError) (i : Json) :
    wellFormedResponse (e.toResponse i) ∧ (e.toResponse i).getField "id" = some i := by
  obtain ⟨c, m, d⟩ := e
  cases d <;> exact ⟨⟨rfl, rfl, Or.inr ⟨rfl, rfl⟩⟩, rfl⟩

theorem exceptMap_ok {ε α β : Type} {f : α → β} {e : Except ε α} {r : β}
    (h : Except.map f e = .ok r) : ∃ y, e = .ok y ∧ r = f y := by
  cases e with
  | error x => simp [Except.map] at h
  | ok y =>
      simp only [Except.map] at h
      injection h with h
      exact ⟨y, rfl, h.symm⟩

/-- Every successful return of the `try` body of `_dispatch` is either a
`_response` or an `_error` built on the request id. -/
theorem dispatchCore_ok_shape {env : ClientEnv} {i m p r : Json}
    (h : dispatchCore env i m p = .ok r) :
    (∃ x, r = jresponse i x) ∨ (∃ c s, r = jerror i c s) := by
  cases m <;> simp only [dispatchCore] at h
  case str s =>
    split_ifs at h with h1 h2 h3 h4 h5 h6
    · injection h with h; exact Or.inl ⟨_, h.symm⟩
    · injection h with h; exact Or.inl ⟨_, h.symm⟩
    · injection h with h; exact Or.inl ⟨_, h.symm⟩
    · rcases exceptMap_ok h with ⟨y, _, rfl⟩; exact Or.inl ⟨y, rfl⟩
    · injection h with h; exact Or.inl ⟨_, h.symm⟩
    · rcases exceptMap_ok h with ⟨y, _, rfl⟩; exact Or.inl ⟨y, rfl⟩
    · injection h with h; exact Or.inr ⟨_, _, h.symm⟩
  all_goals (injection h with h; exact Or.inr ⟨_, _, h.symm⟩)

/-- Whatever the routed handler does, `_dispatch` produces a well-formed
response built on the request id. -/
theorem dispatchWith_shape (env : ClientEnv) (i m p : Json) :
    wellFormedResponse (dispatchWith env i m p) ∧
    (dispatchWith env i m p).getField "id" = some i := by
  unfold dispatchWith
  rcases hcore : dispatchCore env i m p with e | r
  · cases e with
    | apiError s rendered => exact jerror_shape i _ _
    | connectionError rendered => exact jerror_shape i _ _
    | recruiteeError msg => exact jerror_shape i _ _
    | otherExc msg => exact jerror_shape i _ _
  · rcases dispatchCore_ok_shape hcore with ⟨x, rfl⟩ | ⟨c, s, rfl⟩
    · exact jresponse_shape i x
    · exact jerror_shape i c s

theorem dispatch_shape (env : ClientEnv) (req : Json) :
    wellFormedResponse (dispatch env req) ∧
    (dispatch env req).getField "id" = some ((req.getField "id").getD .null) :=
  dispatchWith_shape env _ _ _

/-! ## Lookup/update lemmas for the params normalization -/

theorem lookupField_map_set (kvs : List (String × Json)) (k k2 : String)
    (v : Json) (h : k2 ≠ k) :
    lookupField (kvs.map (fun kv => if kv.1 = k then (k, v) else kv)) k2 =
      lookupField kvs k2 := by
  induction kvs with
  | nil => rfl
  | cons a rest ih =>
      obtain ⟨ak, av⟩ := a
      show lookupField ((if ak = k then (k, v) else (ak, av)) ::
        rest.map (fun kv => if kv.1 = k then (k, v) else kv)) k2 =
        lookupField ((ak, av) :: rest) k2
      by_cases hak : ak = k
      · rw [if_pos hak]
        show (if k = k2 then some v else _) = (if ak = k2 then some av else _)
        rw [if_neg (fun he => h (Eq.symm he)), hak,
          if_neg (fun he => h (Eq.symm he))]
        exact ih
      · rw [if_neg hak]
        show (if ak = k2 then some av else _) = (if ak = k2 then some av else _)
        by_cases hk2 : ak = k2
        · rw [if_pos hk2, if_pos hk2]
        · rw [if_neg hk2, if_neg hk2]; exact ih

theorem lookupField_append_single_ne (kvs : List (String × Json))
    (k k2 : String) (v : Json) (h : k2 ≠ k) :
    lookupField (kvs ++ [(k, v)]) k2 = lookupField kvs k2 := by
  induction kvs with
  | nil =>
      show (if k = k2 then some v else none) = none
      rw [if_neg (fun he => h (Eq.symm he))]
  | cons a rest ih =>
      obtain ⟨ak, av⟩ := a
      show (if ak = k2 then some av else lookupField (rest ++ [(k, v)]) k2) =
        (if ak = k2 then some av else lookupField rest k2)
      by_cases hak : ak = k2
      · rw [if_pos hak, if_pos hak]
      · rw [if_neg hak, if_neg hak]; exact ih

/-- Normalizing the `params` entry leaves every other key unchanged. -/
theorem lookupField_setField_ne (kvs : List (String × Json)) (k k2 : String)
    (v : Json) (h : k2 ≠ k) :
    lookupField (setField kvs k v) k2 = lookupField kvs k2 := by
  unfold setField
  split
  · exact lookupField_map_set kvs k k2 v h
  · exact lookupField_append_single_ne kvs k k2 v h

/-- Every successful result of `handle_json_rpc` is a `_dispatch` result. -/
theorem handleJsonRpc_ok_dispatch {env : ClientEnv} {req r : Json}
    (h : handleJsonRpc env req = .ok r) :
    ∃ req2, r = dispatch env req2 := by
  cases req <;> simp only [handleJsonRpc] at h
  case obj kvs =>
    split_ifs at h with h1 h2 h3 h4
    split at h
    · injection h with h; exact ⟨_, h.symm⟩
    · injection h with h; exact ⟨_, h.symm⟩
    · exact Except.noConfusion h
  all_goals exact Except.noConfusion h

/-- When the four envelope guards pass, `handle_json_rpc` reduces to the
params normalization step. -/
theorem handleJsonRpc_valid_prefix (env : ClientEnv)
    (kvs : List (String × Json)) (idv : Json) (m : String)
    (htag : lookupField kvs "jsonrpc" = some (.str "2.0"))
    (hid : lookupField kvs "id" = some idv) (hidnn : idv ≠ .null)
    (hm : lookupField kvs "method" = some (.str m)) (hmne : m ≠ "") :
    handleJsonRpc env (.obj kvs) =
      match (lookupField kvs "params").getD .null with
      | .null => .ok (dispatch env (.obj (setField kvs "params" (.obj []))))
      | .obj pkvs => .ok (dispatch env (.obj (setField kvs "params" (.obj pkvs))))
      | _ => .error ⟨-32602, "Invalid params",
          some (.str "Params must be an object")⟩ := by
  have g1 : tagOk (lookupField kvs "jsonrpc") = true := by rw [htag]; rfl
  have g2 : (lookupField kvs "id").isNone = false := by rw [hid]; rfl
  have g3 : idIsNull (lookupField kvs "id") = false := by
    rw [hid]; cases idv <;> simp_all [idIsNull]
  have g4 : methodOk (lookupField kvs "method") = true := by
    rw [hm]; simp [methodOk, hmne]
  simp only [handleJsonRpc, g1, g2, g3, g4]
  generalize (lookupField kvs "params").getD Json.null = q
  cases q <;> rfl

/-- Shared step for valid envelopes: a successful `handle_json_rpc` run
produces a dispatch response whose `id` is the request's `id` and which
carries exactly one of `result`/`error`. -/
theorem c1_aux (env : ClientEnv) (kvs : List (String × Json)) (idv : Json)
    (X : Json) (hid : lookupField kvs "id" = some idv)
    (hred2 : handleJsonRpc env (.obj kvs) =
      .ok (dispatch env (.obj (setField kvs "params" X)))) :
    ∃ resp, handleJsonRpc env (.obj kvs) = .ok resp ∧
      resp.getField "id" = some idv ∧ exactlyOneOf resp := by
  refine ⟨_, hred2, ?_, (dispatch_shape env _).1.2.2⟩
  have h2 := (dispatch_shape env (.obj (setField kvs "params" X))).2
  rw [h2]
  show some ((lookupField (setField kvs "params" X) "id").getD .null) = some idv
  rw [lookupField_setField_ne kvs "params" "id" X (by decide), hid]
  rfl

/-! ## Claim theorems -/

/-- C1: for every JSON-RPC request that passes envelope validation and
names a registered method, dispatch returns a response whose `id` equals
the request's `id` and which contains exactly one of `result`/`error`
(never both, never neither) — for every possible behaviour of the remote
client. -/
theorem c1_dispatch_id_and_exactly_one (env : ClientEnv)
    (kvs : List (String × Json)) (idv : Json) (m : String)
    (htag : lookupField kvs "jsonrpc" = some (.str "2.0"))
    (hid : lookupField kvs "id" = some idv) (hidnn : idv ≠ .null)
    (hm : lookupField kvs "method" = some (.str m)) (hmne : m ≠ "")
    (_hreg : m ∈ registeredMethods)
    (hparams : lookupField kvs "params" = none ∨
      lookupField kvs "params" = some .null ∨
      ∃ pkvs, lookupField kvs "params" = some (.obj pkvs)) :
    ∃ resp, handleJsonRpc env (.obj kvs) = .ok resp ∧
      resp.getField "id" = some idv ∧ exactlyOneOf resp := by
  have hred := handleJsonRpc_valid_prefix env kvs idv m htag hid hidnn hm hmne
  rcases hparams with hp | hp | ⟨pkvs, hp⟩ <;> rw [hp] at hred
  · exact c1_aux env kvs idv (.obj []) hid hred
  · exact c1_aux env kvs idv (.obj []) hid hred
  · exact c1_aux env kvs idv (.obj pkvs) hid hred

/-- C1 witness: a concrete valid `ping` request satisfies the hypotheses
and the conclusion. -/
theorem c1_dispatch_id_and_exactly_one_witness :
    ∃ resp, handleJsonRpc stubEnv (.obj [("jsonrpc", Json.str "2.0"),
        ("id", Json.num 1), ("method", Json.str "ping")]) = .ok resp ∧
      resp.getField "id" = some (Json.num 1) ∧ exactlyOneOf resp :=
  c1_dispatch_id_and_exactly_one stubEnv
    [("jsonrpc", Json.str "2.0"), ("id", Json.num 1), ("method", Json.str "ping")]
    (Json.num 1) "ping" rfl rfl (fun h => Json.noConfusion h) rfl
    (by decide) (by decide) (Or.inl rfl)

/-- C2 counterexample: the claim says an API error maps to the remote
status when it is a positive integer and otherwise to one generic
negative fallback code, and that an unexpected exception carries the
message as auxiliary `data`.  The dispatcher actually forwards any
nonzero status unchanged — two different negative statuses produce two
different codes, so no fixed fallback is used for non-positive statuses —
and the `-32603` response has no `data` field at all (the message is
embedded in the `message` string). -/
theorem c2_error_code_counterexample :
    dispatch (apiStatusEnv (-7)) readOffersReq = jerror (.num 1) (-7) "api failure"
    ∧ dispatch (apiStatusEnv (-8)) readOffersReq = jerror (.num 1) (-8) "api failure"
    ∧ ¬(0 < (-7 : Int)) ∧ ((-7 : Int) ≠ -32000) ∧ ((-8 : Int) ≠ -32000)
    ∧ dispatch boomEnv readOffersReq =
        jerror (.num 1) (-32603) "Unexpected error: boom"
    ∧ (match (dispatch boomEnv readOffersReq).getField "error" with
       | some e => e.getField "data"
       | none => none) = none :=
  ⟨rfl, rfl, by decide, by decide, by decide, rfl, rfl⟩

/-- The error-code column of the translation table stated by the spec,
written independently of the dispatcher: the remote status whenever it is
nonzero, else the generic fallback `-32000`; `-32002` for connection
failures; `-32001` for other remote-layer errors; `-32603` otherwise. -/
def recErrCode : RecErr → Int
  | .apiError s _ => if s = 0 then -32000 else s
  | .connectionError _ => -32002
  | .recruiteeError _ => -32001
  | .otherExc _ => -32603

/-- The message column of the same table: `str(exc)` for the typed client
errors, and `"Unexpected error: {exc}"` for any other exception — the
message is embedded in the `message` string, not attached as data. -/
def recErrMessage : RecErr → String
  | .apiError _ rendered => rendered
  | .connectionError rendered => rendered
  | .recruiteeError msg => msg
  | .otherExc msg => "Unexpected error: " ++ msg

/-- C2 (amended): a handler error is translated by the dispatch boundary
as follows — a connection failure to `-32002`; an API error to the remote
status code whenever that status is a nonzero integer and to the generic
fallback `-32000` otherwise; any other remote-layer error to `-32001`;
any other uncaught exception to `-32603` with the exception text embedded
in the message (`"Unexpected error: ..."`), without an auxiliary data
field. -/
theorem c2_error_code_translation (env : ClientEnv)
    (requestId method params : Json) (e : RecErr)
    (h : dispatchCore env requestId method params = .error e) :
    dispatchWith env requestId method params =
      jerror requestId (recErrCode e) (recErrMessage e) := by
  cases e with
  | apiError s rendered => unfold dispatchWith; rw [h]; rfl
  | connectionError rendered => unfold dispatchWith; rw [h]; rfl
  | recruiteeError msg => unfold dispatchWith; rw [h]; rfl
  | otherExc msg => unfold dispatchWith; rw [h]; rfl

/-- C2 witness: a `read_resource` request against a client whose offer
listing raises a connection error yields the `-32002` response. -/
theorem c2_error_code_translation_witness :
    dispatchWith connFailEnv (.num 1) (.str "read_resource")
      (.obj [("uri", .str "recruitee://offers")]) =
      jerror (.num 1) (-32002) "connection refused" :=
  c2_error_code_translation connFailEnv (.num 1) (.str "read_resource")
    (.obj [("uri", .str "recruitee://offers")])
    (.connectionError "connection refused") rfl

/-- C3 counterexample: the claim says a sequence-valued `params` is
accepted and spread as positional arguments; the validator actually
rejects it with `-32602` (`"Params must be an object"`). -/
theorem c3_array_params_counterexample :
    handleJsonRpc stubEnv (.obj [("jsonrpc", .str "2.0"), ("id", .num 7),
      ("method", .str "ping"), ("params", .arr [.num 1, .num 2])]) =
    .error ⟨-32602, "Invalid params", some (.str "Params must be an object")⟩ := rfl

/-- C3 (amended): for every envelope-valid request whose `params` value
is present and is neither an object nor JSON `null` (null is treated as
absent), dispatch rejects the request with error code `-32602`
("Invalid params") — arrays included. -/
theorem c3_nonobject_params_rejected (env : ClientEnv)
    (kvs : List (String × Json)) (idv : Json) (m : String) (p : Json)
    (htag : lookupField kvs "jsonrpc" = some (.str "2.0"))
    (hid : lookupField kvs "id" = some idv) (hidnn : idv ≠ .null)
    (hm : lookupField kvs "method" = some (.str m)) (hmne : m ≠ "")
    (hp : lookupField kvs "params" = some p)
    (hpnull : p ≠ .null) (hpobj : ∀ pkvs, p ≠ .obj pkvs) :
    handleJsonRpc env (.obj kvs) =
      .error ⟨-32602, "Invalid params", some (.str "Params must be an object")⟩ := by
  have hred := handleJsonRpc_valid_prefix env kvs idv m htag hid hidnn hm hmne
  rw [hp] at hred
  rw [hred]
  cases p with
  | null => exact absurd rfl hpnull
  | obj pkvs => exact absurd rfl (hpobj pkvs)
  | bool b => rfl
  | num n => rfl
  | str s => rfl
  | arr xs => rfl

/-- C3 witness: a concrete array-params request is rejected with
`-32602` through the amended theorem. -/
theorem c3_nonobject_params_rejected_witness :
    handleJsonRpc stubEnv (.obj [("jsonrpc", .str "2.0"), ("id", .num 9),
      ("method", .str "ping"), ("params", .arr [.num 3])]) =
      .error ⟨-32602, "Invalid params", some (.str "Params must be an object")⟩ :=
  c3_nonobject_params_rejected stubEnv
    [("jsonrpc", .str "2.0"), ("id", .num 9), ("method", .str "ping"),
     ("params", .arr [.num 3])]
    (.num 9) "ping" (.arr [.num 3]) rfl rfl (fun h => Json.noConfusion h) rfl
    (by decide) rfl (fun h => Json.noConfusion h)
    (fun _ h => Json.noConfusion h)

/-- C4: every payload whose `id` field is absent — including non-object
payloads, which have no fields — and every payload whose `id` is present
but null is rejected with the error "Invalid Request", code `-32600`. -/
theorem c4_missing_or_null_id_rejected (env : ClientEnv) (req : Json)
    (h : req.getField "id" = none ∨ req.getField "id" = some .null) :
    ∃ d, handleJsonRpc env req = .error ⟨-32600, "Invalid Request", d⟩ := by
  cases req with
  | obj kvs =>
      simp only [Json.getField] at h
      simp only [handleJsonRpc]
      by_cases h1 : tagOk (lookupField kvs "jsonrpc") = false
      · rw [if_pos h1]; exact ⟨_, rfl⟩
      · rw [if_neg h1]
        rcases h with h | h
        · rw [h]; exact ⟨_, rfl⟩
        · rw [h]; exact ⟨_, rfl⟩
  | null => exact ⟨_, rfl⟩
  | bool b => exact ⟨_, rfl⟩
  | num n => exact ⟨_, rfl⟩
  | str s => exact ⟨_, rfl⟩
  | arr xs => exact ⟨_, rfl⟩

/-- C4 witness: a request with no `id` entry is rejected as
"Invalid Request". -/
theorem c4_missing_or_null_id_rejected_witness :
    ∃ d, handleJsonRpc stubEnv (.obj [("jsonrpc", Json.str "2.0"),
      ("method", Json.str "ping")]) = .error ⟨-32600, "Invalid Request", d⟩ :=
  c4_missing_or_null_id_rejected stubEnv _ (Or.inl rfl)

/-- C5: for every decoded payload handed to the transport-level dispatch
wrapper and every behaviour of the remote client, the returned value is a
well-formed JSON-RPC response object — protocol tag, an `id` field, and
exactly one of `result`/`error`; no code path escapes as an exception
(the model is a total function whose error branches are all converted to
responses). -/
theorem c5_dispatch_total_wellformed (env : ClientEnv) (payload : Json) :
    wellFormedResponse (dispatchRequest env payload) := by
  cases payload with
  | obj kvs =>
      simp only [dispatchRequest]
      rcases hh : handleJsonRpc env (.obj kvs) with e | r
      · exact (toResponse_shape e _).1
      · rcases handleJsonRpc_ok_dispatch hh with ⟨req2, rfl⟩
        exact (dispatch_shape env req2).1
  | null =>
      exact (toResponse_shape ⟨-32600, "Invalid Request",
        some (.str "Request must be an object")⟩ .null).1
  | bool b =>
      exact (toResponse_shape ⟨-32600, "Invalid Request",
        some (.str "Request must be an object")⟩ .null).1
  | num n =>
      exact (toResponse_shape ⟨-32600, "Invalid Request",
        some (.str "Request must be an object")⟩ .null).1
  | str s =>
      exact (toResponse_shape ⟨-32600, "Invalid Request",
        some (.str "Request must be an object")⟩ .null).1
  | arr xs =>
      exact (toResponse_shape ⟨-32600, "Invalid Request",
        some (.str "Request must be an object")⟩ .null).1

set_option maxRecDepth 10000 in
/-- C6 counterexample: a remote source holding 1137 records (which
returns pages of sizes 500, 500, 137 when asked for 500 at a time)
cannot yield 1200 items: iterating with `max_records = 1200` requests
`(offset, limit)` pages `(0,500)`, `(500,500)`, `(1000,200)` — no fourth
request — and yields exactly 1137 items, not the 1200 the claim states. -/
theorem c6_pagination_1200_counterexample :
    (iterAdvanced (mockSource 1137) 500 (some 1200) 10 0 0).items.length = 1137
    ∧ (iterAdvanced (mockSource 1137) 500 (some 1200) 10 0 0).requests =
        [(0, 500), (500, 500), (1000, 200)]
    ∧ (1137 : Nat) ≠ 1200 :=
  ⟨by decide, by decide, by decide⟩

set_option maxRecDepth 10000 in
/-- C6 (amended): on the 1137-record source with page size 500 and
`max_records = 1200`, iteration requests pages `(0,500)`, `(500,500)`,
`(1000,200)` — each offset advanced by the number of items actually
returned — yields all 1137 items, and stops without a fourth request
because the third page came back short; a source that answers a first
full page of 60 and then an empty page stops after the second (empty)
page with 60 items; and an unbounded source with page size 2 and
`max_records = 5` stops after yielding exactly 5 items in three
requests (cap reached). -/
theorem c6_pagination_scenarios :
    ((iterAdvanced (mockSource 1137) 500 (some 1200) 10 0 0).items.length = 1137
      ∧ (iterAdvanced (mockSource 1137) 500 (some 1200) 10 0 0).requests =
          [(0, 500), (500, 500), (1000, 200)])
    ∧ ((iterAdvanced (mockSource 60) 60 none 10 0 0).items.length = 60
      ∧ (iterAdvanced (mockSource 60) 60 none 10 0 0).requests =
          [(0, 60), (60, 60)])
    ∧ ((iterAdvanced mockUnbounded 2 (some 5) 10 0 0).items.length = 5
      ∧ (iterAdvanced mockUnbounded 2 (some 5) 10 0 0).requests =
          [(0, 2), (2, 2), (4, 1)]) :=
  ⟨⟨by decide, by decide⟩, ⟨by decide, by decide⟩, ⟨by decide, by decide⟩⟩

/-- C7: every request URL is
`{baseUrl}/c/{companyId}/{path with leading slashes stripped}` (for a
base URL without a trailing slash, as configured); a query string is
appended exactly when a non-null parameter survives the `None` filter;
appending a null-valued parameter never changes the URL; and a
sequence-valued parameter is encoded by repeating the key
(`tags=a&tags=b`), not comma-joined. -/
theorem buildUrl_closed_form (base cid path : String)
    (ps : List (String × ParamValue))
    (hbase : stripTrailingSlashes base = base) :
    buildUrl base cid path (some ps) =
      base ++ "/c/" ++ cid ++ "/" ++ stripLeadingSlashes path ++
        (if (ps.filter (fun kv => !kv.2.isNull)).isEmpty then ""
         else "?" ++ urlencodeDoseq (ps.filter (fun kv => !kv.2.isNull))) := by
  unfold buildUrl
  rw [hbase]
  rcases ps with _ | ⟨p0, ps2⟩
  · simp
  · show (if ((p0 :: ps2).filter (fun kv => !kv.2.isNull)).isEmpty
        then base ++ "/c/" ++ cid ++ "/" ++ stripLeadingSlashes path
        else base ++ "/c/" ++ cid ++ "/" ++ stripLeadingSlashes path ++ "?" ++
          urlencodeDoseq ((p0 :: ps2).filter (fun kv => !kv.2.isNull))) = _
    by_cases hf : ((p0 :: ps2).filter (fun kv => !kv.2.isNull)).isEmpty
    · rw [if_pos hf, if_pos hf]
      simp
    · rw [if_neg hf, if_neg hf]
      simp [String.append_assoc]

theorem c7_build_url (base cid path : String)
    (ps : List (String × ParamValue)) (k : String)
    (hbase : stripTrailingSlashes base = base) :
    (buildUrl base cid path (some ps) =
      base ++ "/c/" ++ cid ++ "/" ++ stripLeadingSlashes path ++
        (if (ps.filter (fun kv => !kv.2.isNull)).isEmpty then ""
         else "?" ++ urlencodeDoseq (ps.filter (fun kv => !kv.2.isNull))))
    ∧ buildUrl base cid path (some (ps ++ [(k, ParamValue.null)])) =
        buildUrl base cid path (some ps)
    ∧ buildUrl "https://api.recruitee.com" "acme" "search/new/candidates"
        (some [("tags", ParamValue.seqStr ["a", "b"])]) =
      "https://api.recruitee.com/c/acme/search/new/candidates?tags=a&tags=b" := by
  have hfilter :
      (ps ++ [(k, ParamValue.null)]).filter (fun kv => !kv.2.isNull) =
        ps.filter (fun kv => !kv.2.isNull) := by
    rw [List.filter_append]
    simp [ParamValue.isNull]
  refine ⟨buildUrl_closed_form base cid path ps hbase, ?_, rfl⟩
  rw [buildUrl_closed_form base cid path (ps ++ [(k, ParamValue.null)]) hbase,
    buildUrl_closed_form base cid path ps hbase, hfilter]

/-- C7 witness: the template, null-dropping and repeated-key claims hold
at the default base URL with a concrete sequence parameter. -/
theorem c7_build_url_witness :
    buildUrl "https://api.recruitee.com" "acme" "search/new/candidates"
        (some [("tags", ParamValue.seqStr ["a", "b"])]) =
      "https://api.recruitee.com/c/acme/search/new/candidates?tags=a&tags=b" :=
  (c7_build_url "https://api.recruitee.com" "acme" "search/new/candidates"
    [("tags", ParamValue.seqStr ["a", "b"])] "x" rfl).2.2

/-- C8: `_to_ts` maps an integer to itself and a float to its truncation
toward zero; a datetime without a zone is coerced exactly as the same
datetime tagged UTC; a bare date is coerced exactly as midnight UTC of
that date; and `2024-03-01` coerces to `1709251200`, the same value as
the explicit UTC-midnight datetime.  The output type is `Int` — always an
integer. -/
theorem c8_timestamp_coercion :
    (∀ n : Int, toTs (.int n) = n)
    ∧ toTs (.float (mkRat 5 2)) = 2
    ∧ toTs (.float (mkRat (-5) 2)) = -2
    ∧ (∀ y m d hh mi ss : Int,
        toTs (.datetime ⟨y, m, d, hh, mi, ss, none⟩) =
        toTs (.datetime ⟨y, m, d, hh, mi, ss, some 0⟩))
    ∧ (∀ y m d : Int,
        toTs (.date ⟨y, m, d⟩) = toTs (.datetime ⟨y, m, d, 0, 0, 0, some 0⟩))
    ∧ toTs (.date ⟨2024, 3, 1⟩) = 1709251200
    ∧ toTs (.datetime ⟨2024, 3, 1, 0, 0, 0, some 0⟩) = 1709251200 :=
  ⟨fun _ => rfl, by decide, by decide, fun _ _ _ _ _ _ => rfl,
    fun _ _ _ => rfl, by decide, by decide⟩

/-- C9: each match-validated filter constructor (`f_with_tags`,
`f_source`, `f_location`) succeeds exactly for the literal values
`"any"` and `"all"`, and otherwise raises the `ValueError` at
construction time — the constructors are pure (no client environment is
involved), so the rejection happens before any remote call could be
made; on success the built filter is the single dict
`{"field": ..., match: list}`. -/
theorem c9_match_validation (xs : List String) (m : String) :
    (isOkE (fWithTags xs m) = true ↔ m = "any" ∨ m = "all")
    ∧ (isOkE (fSource xs m) = true ↔ m = "any" ∨ m = "all")
    ∧ (isOkE (fLocation xs m) = true ↔ m = "any" ∨ m = "all")
    ∧ (fWithTags xs m = .ok (.obj [("field", .str "tags"), (m, .arr (xs.map .str))])
       ∨ fWithTags xs m = .error "match must be \x27any\x27 or \x27all\x27")
    ∧ (fSource xs m = .ok (.obj [("field", .str "source"), (m, .arr (xs.map .str))])
       ∨ fSource xs m = .error "match must be \x27any\x27 or \x27all\x27")
    ∧ (fLocation xs m =
         .ok (.obj [("field", .str "location"), (m, .arr (xs.map .str))])
       ∨ fLocation xs m = .error "match must be \x27any\x27 or \x27all\x27") := by
  by_cases h1 : m = "any"
  · subst h1
    simp [fWithTags, fSource, fLocation, isOkE]
  · by_cases h2 : m = "all"
    · subst h2
      simp [fWithTags, fSource, fLocation, isOkE]
    · simp [fWithTags, fSource, fLocation, isOkE, h1, h2]

/-- C10: in `_tool_create_candidate`, a required argument that is absent
(`None`), explicitly null (also `None`) or an empty string is uniformly
Python-falsy and collected as missing; whenever any required field is
missing the tool returns the domain validation error whose message
enumerates exactly the missing fields (in the `required` order, joined
by `", "`) — for every client environment, i.e. without any remote
call. -/
theorem c10_create_candidate_missing (env : ClientEnv)
    (kvs : List (String × Json)) :
    (∀ missing : List String,
      missing = requiredCreateFields.filter (fun f => (pyLook kvs f).pyFalsy) →
      missing ≠ [] →
      toolCreateCandidate env (.obj kvs) =
        .error (.recruiteeError
          ("Missing required fields: " ++ String.intercalate ", " missing)))
    ∧ Json.pyFalsy .null = true
    ∧ Json.pyFalsy (.str "") = true
    ∧ (∀ key, pyLook [] key = Json.null) := by
  refine ⟨?_, rfl, rfl, fun _ => rfl⟩
  rintro missing rfl hne
  simp only [toolCreateCandidate]
  rw [if_pos hne]

/-- C10 witness: with only `first_name` supplied, the tool reports
`last_name` and `email` as missing, in order, for the stub client. -/
theorem c10_create_candidate_missing_witness :
    toolCreateCandidate stubEnv (.obj [("first_name", Json.str "Jane")]) =
      .error (.recruiteeError "Missing required fields: last_name, email") := by
  have h := (c10_create_candidate_missing stubEnv
    [("first_name", Json.str "Jane")]).1
    (requiredCreateFields.filter
      (fun f => (pyLook [("first_name", Json.str "Jane")] f).pyFalsy))
    rfl (by decide)
  exact h

end RecruiteeMCP
